import Mathlib

/-!
Verification of the event-discovery pipeline of
`custom_components/fireworks_tonight/api.py`.

Modelling conventions:
* Python strings are sequences of characters: `PyStr := List Char`; the source's
  `location.split(',')`, `str.strip()` and `str.lower()` are embedded as structurally
  recursive functions on character lists.
* Python floats are modelled as exact rationals; `round(x, 2)` is round-half-even to
  two decimal places (CPython rounding), computed on numerator and denominator.
* A field of a decoded JSON object is a `JField`: absent, present with value null, or
  present with a proper value.  Python `d.get(k, default)` yields the default only
  when the key is absent; a present null comes back as Python `None`.
* Each upstream HTTP endpoint is an oracle field of `Upstream`; `UpResp.err` covers
  every exception path inside the `try` blocks of `api.py` (timeout, transport
  error, `raise_for_status`, malformed body).
* A Python exception escaping a function is `Except.error ()`; a normal return is
  `Except.ok`.
* The source's `calculate_distance` computes with IEEE-754 floats; it is embedded
  over the reals, and the event loop, whose logic is independent of how distances
  are produced, takes the distance function as an explicit parameter.
-/

namespace Fireworks

/-- A Python string, as its sequence of characters. -/
abbrev PyStr : Type := List Char

/-- Python `s.split(',')`.  The result is never the empty list: splitting the empty
string yields `[[]]`, as CPython's `''.split(',') == ['']`. -/
def pySplitComma : PyStr → List PyStr
  | [] => [[]]
  | c :: rest =>
    if c = ',' then [] :: pySplitComma rest
    else
      match pySplitComma rest with
      | [] => [[c]]
      | s :: ss => (c :: s) :: ss

/-- Python `s.strip()`: whitespace removed from both ends. -/
def pyStrip (s : PyStr) : PyStr :=
  ((s.dropWhile Char.isWhitespace).reverse.dropWhile Char.isWhitespace).reverse

/-- Python `s.lower()` (ASCII case folding, as in the locality names involved). -/
def pyLower (s : PyStr) : PyStr := s.map Char.toLower

/-- A field of a decoded JSON object: absent, present with null, or present with a
value. -/
inductive JField (α : Type) where
  | absent : JField α
  | null : JField α
  | val : α → JField α
deriving DecidableEq

/-- Python `d.get(k)`: `None` when the key is absent or its value is null. -/
def JField.get {α : Type} : JField α → Option α
  | .absent => none
  | .null => none
  | .val a => some a

/-- Python `d.get(k, default)`: the default only when the key is absent; a present
null comes back as `None`. -/
def JField.getD {α : Type} : JField α → α → Option α
  | .absent, d => some d
  | .null, _ => none
  | .val a, _ => some a

/-- Python `d.get(k, default)` whose result is immediately used as an object (lines
122-123 of `api.py`): when the stored value is null, the attribute access on the
returned `None` raises, in the same loop iteration; absent keys yield the `{}`
default. -/
def JField.getObj {α : Type} : JField α → α → Except Unit α
  | .absent, d => Except.ok d
  | .null, _ => Except.error ()
  | .val a, _ => Except.ok a

instance {ε α : Type} [DecidableEq ε] [DecidableEq α] : DecidableEq (Except ε α) :=
  fun x y =>
    match x, y with
    | .ok a, .ok b =>
      match decEq a b with
      | isTrue h => isTrue (h ▸ rfl)
      | isFalse h => isFalse (fun hh => h (Except.ok.inj hh))
    | .ok _, .error _ => isFalse (fun h => Except.noConfusion h)
    | .error _, .ok _ => isFalse (fun h => Except.noConfusion h)
    | .error e, .error f =>
      match decEq e f with
      | isTrue h => isTrue (h ▸ rfl)
      | isFalse h => isFalse (fun hh => h (Except.error.inj hh))

/-- The nested `location.coordinates` object of a raw upstream event. -/
structure RawCoordinates where
  latitude : JField ℚ
  longitude : JField ℚ
deriving DecidableEq

/-- The empty dict used as default for a missing `coordinates` object. -/
def RawCoordinates.empty : RawCoordinates := ⟨.absent, .absent⟩

/-- The nested `location` object of a raw upstream event. -/
structure RawLocation where
  locality : JField PyStr
  coordinates : JField RawCoordinates
deriving DecidableEq

/-- The empty dict used as default for a missing `location` object. -/
def RawLocation.empty : RawLocation := ⟨.absent, .absent⟩

/-- A raw event record as decoded from the upstream `events` endpoint. -/
structure RawEvent where
  name : JField PyStr
  rawlocation : JField PyStr
  location : JField RawLocation
  date : JField PyStr
  start_time : JField PyStr
  end_time : JField PyStr
  description : JField PyStr
  source : JField PyStr
  id : JField ℤ
deriving DecidableEq

/-- A raw event all of whose top-level optional fields are absent. -/
def RawEvent.blank (location : JField RawLocation) : RawEvent :=
  ⟨.absent, .absent, location, .absent, .absent, .absent, .absent, .absent, .absent⟩

/-- The `nearby_event` dictionary built at lines 136-151 of `api.py`.  Each value
produced by `d.get` can be Python `None`, hence the `Option` types. -/
structure NormalizedEvent where
  title : Option PyStr
  location : Option PyStr
  locality : Option PyStr
  coordinates : ℚ × ℚ
  distance_km : ℚ
  date : Option PyStr
  start_time : Option PyStr
  end_time : Option PyStr
  description : Option PyStr
  source : Option PyStr
  event_id : Option ℤ
deriving DecidableEq

/-- The pipeline result: a dict with exactly the keys `event_count` and `events`. -/
structure EventSet where
  event_count : ℕ
  events : List NormalizedEvent
deriving DecidableEq

/-- The empty-result sentinel returned on every degraded path. -/
def EventSet.empty : EventSet := ⟨0, []⟩

/-- One upstream HTTP response: a decoded JSON value, or any exception raised while
requesting or decoding it (timeout, transport error, non-2xx status, bad body). -/
inductive UpResp (α : Type) where
  | ok : α → UpResp α
  | err : UpResp α
deriving DecidableEq

/-- A record of the exact-match `locations` response; only its `id` field is read. -/
structure LocRecord where
  id : JField ℤ
deriving DecidableEq

/-- The three upstream endpoints consumed by `api.py`, as response oracles: prefix
search keyed by the queried prefix, exact match keyed by locality and postcode, and
events keyed by location id and day window. -/
structure Upstream where
  locations_startswith : PyStr → UpResp (List PyStr)
  locations_exact : PyStr → PyStr → UpResp (List LocRecord)
  events : ℤ → ℕ → UpResp (List RawEvent)

/-- Round-half-even of the fraction `n / d` (for `d > 0`) to the nearest integer,
as CPython rounds. -/
def roundHalfEvenFrac (n d : ℤ) : ℤ :=
  let f := n.fdiv d
  let r := n.fmod d
  if 2 * r < d then f
  else if d < 2 * r then f + 1
  else if f % 2 = 0 then f else f + 1

/-- Python `round(x, 2)`: round-half-even to two decimal places.  `100 * x` is the
fraction `(100 * x.num) / x.den`. -/
def roundTo2 (x : ℚ) : ℚ := mkRat (roundHalfEvenFrac (100 * x.num) (x.den : ℤ)) 100

/-- Default for a missing `name` field (line 137 of `api.py`). -/
def defaultTitle : PyStr := "Unknown Event".toList

/-- Default for a missing `rawlocation` field (line 138 of `api.py`). -/
def defaultLocationStr : PyStr := "Unknown Location".toList

/-- Default for a missing `locality` field (line 139 of `api.py`). -/
def defaultLocality : PyStr := "Unknown".toList

/-- Embedding of `FireworksAPI._get_locations` (lines 52-65 of `api.py`): the first element of the
prefix-search response, `None` on an empty response or any request error. -/
def get_locations (u : Upstream) (postcode : PyStr) : Option PyStr :=
  match u.locations_startswith postcode with
  | .err => none
  | .ok [] => none
  | .ok (s :: _) => some s

/-- Embedding of `FireworksAPI._get_location_id` (lines 67-85 of `api.py`).  The split and the
indexing `parts[1]` at lines 73-75 happen before the `try` block: when the step-1
string contains no comma, `parts[1]` raises `IndexError`, which escapes this
function.  Inside the `try`, any request failure yields `None`; `data[0]['id']`
yields `None` both when the first record lacks `id` (`KeyError`, caught by the broad
handler) and when `id` is null. -/
def get_location_id (u : Upstream) (postcode : PyStr) : Except Unit (Option ℤ) :=
  match get_locations u postcode with
  | none => Except.ok none
  | some location =>
    if location = [] then Except.ok none
    else
      match pySplitComma location with
      | [] => Except.error ()
      | [_] => Except.error ()
      | p0 :: p1 :: _ =>
        match u.locations_exact (pyLower (pyStrip p0)) (pyStrip p1) with
        | .err => Except.ok none
        | .ok [] => Except.ok none
        | .ok (r :: _) => Except.ok r.id.get

/-- Embedding of `FireworksAPI._get_events` (lines 87-100 of `api.py`): the decoded events list,
`[]` on any request error. -/
def get_events (u : Upstream) (location_id : ℤ) (days : ℕ) : List RawEvent :=
  match u.events location_id days with
  | .err => []
  | .ok evs => evs

/-- The `nearby_event` dictionary built at lines 136-151 of `api.py`, for a raw event
within range: `loc` is the extracted `location` object, `event_lat` and `event_lon`
the extracted coordinates, `d` the rounded distance attached to the record. -/
def normalize (event : RawEvent) (loc : RawLocation) (event_lat event_lon d : ℚ) :
    NormalizedEvent where
  title := event.name.getD defaultTitle
  location := event.rawlocation.getD defaultLocationStr
  locality := loc.locality.getD defaultLocality
  coordinates := (event_lat, event_lon)
  distance_km := d
  date := event.date.get
  start_time := event.start_time.get
  end_time := event.end_time.get
  description := event.description.getD []
  source := event.source.getD []
  event_id := event.id.get

/-- The filtering loop at lines 121-152 of `api.py`, parameterized by the distance
function (the source calls `self.calculate_distance`).  A present-but-null
`location` or `coordinates` value makes the attribute access at line 123 or 124
raise, aborting the whole loop; events whose latitude or longitude is absent or
null are skipped; the remaining events are kept iff their unrounded distance is at
most `max_distance`, with `round(distance, 2)` attached. -/
def nearbyEvents (dist : ℚ → ℚ → ℚ → ℚ → ℚ)
    (latitude longitude max_distance : ℚ) :
    List RawEvent → Except Unit (List NormalizedEvent)
  | [] => Except.ok []
  | event :: rest =>
    match event.location.getObj RawLocation.empty with
    | Except.error e => Except.error e
    | Except.ok loc =>
      match loc.coordinates.getObj RawCoordinates.empty with
      | Except.error e => Except.error e
      | Except.ok coords =>
        match coords.latitude.get, coords.longitude.get with
        | some event_lat, some event_lon =>
          if dist latitude longitude event_lat event_lon ≤ max_distance then
            match nearbyEvents dist latitude longitude max_distance rest with
            | Except.error e => Except.error e
            | Except.ok tail =>
                Except.ok (normalize event loc event_lat event_lon
                  (roundTo2 (dist latitude longitude event_lat event_lon)) :: tail)
          else nearbyEvents dist latitude longitude max_distance rest
        | _, _ => nearbyEvents dist latitude longitude max_distance rest

/-- The body of `FireworksAPI._get_events_for_days` (lines 110-161 of `api.py`)
inside its `try` block: `Except.error` is an exception reaching the outer handler.
`if not location_id` is Python truthiness: both `None` and `0` take the degraded
branch. -/
def get_events_for_days_core (dist : ℚ → ℚ → ℚ → ℚ → ℚ) (u : Upstream)
    (postcode : PyStr) (latitude longitude max_distance : ℚ) (days : ℕ) :
    Except Unit EventSet :=
  match get_location_id u postcode with
  | Except.error e => Except.error e
  | Except.ok none => Except.ok EventSet.empty
  | Except.ok (some location_id) =>
    if location_id = 0 then Except.ok EventSet.empty
    else
      match nearbyEvents dist latitude longitude max_distance
          (get_events u location_id days) with
      | Except.error e => Except.error e
      | Except.ok nearby => Except.ok ⟨nearby.length, nearby⟩

/-- Embedding of `FireworksAPI._get_events_for_days` (lines 110-161 of `api.py`): the outer
`try`/`except` converts any escaped exception into the empty result. -/
def get_events_for_days (dist : ℚ → ℚ → ℚ → ℚ → ℚ) (u : Upstream)
    (postcode : PyStr) (latitude longitude max_distance : ℚ) (days : ℕ) : EventSet :=
  match get_events_for_days_core dist u postcode latitude longitude max_distance days with
  | Except.ok s => s
  | Except.error _ => EventSet.empty

/-- Embedding of `FireworksAPI.async_get_events` (lines 102-104 of `api.py`): the one-day window. -/
def async_get_events (dist : ℚ → ℚ → ℚ → ℚ → ℚ) (u : Upstream) (postcode : PyStr)
    (latitude longitude max_distance : ℚ) : EventSet :=
  get_events_for_days dist u postcode latitude longitude max_distance 1

/-- Embedding of `FireworksAPI.async_get_all_events` (lines 106-108 of `api.py`): the seven-day
window. -/
def async_get_all_events (dist : ℚ → ℚ → ℚ → ℚ → ℚ) (u : Upstream) (postcode : PyStr)
    (latitude longitude max_distance : ℚ) : EventSet :=
  get_events_for_days dist u postcode latitude longitude max_distance 7

/-- Embedding of `math.radians`. -/
noncomputable def radians (x : ℝ) : ℝ := x * (Real.pi / 180)

/-- Embedding of `FireworksAPI.calculate_distance` (lines 36-50 of `api.py`): the haversine
great-circle distance with Earth radius 6371 km, embedded over the reals (the
source computes with IEEE-754 floats). -/
noncomputable def calculate_distance (lat1 lon1 lat2 lon2 : ℝ) : ℝ :=
  2 * Real.arcsin (Real.sqrt
      (Real.sin ((radians lat2 - radians lat1) / 2) ^ 2 +
        Real.cos (radians lat1) * Real.cos (radians lat2) *
          Real.sin ((radians lon2 - radians lon1) / 2) ^ 2)) * 6371

/-- Rounding a fraction half-even never overshoots an integer bound that dominates
the fraction. -/
theorem roundHalfEvenFrac_le {n d k : ℤ} (hd : 0 < d) (h : n ≤ k * d) :
    roundHalfEvenFrac n d ≤ k := by
  have hmod : n.fmod d = n - d * n.fdiv d := Int.fmod_def n d
  have hfle : n.fdiv d ≤ k := by
    by_contra hlt
    push_neg at hlt
    have h1 : k + 1 ≤ n.fdiv d := hlt
    have h2 : (k + 1) * d ≤ n.fdiv d * d := by
      exact mul_le_mul_of_nonneg_right h1 (le_of_lt hd)
    have h3 : 0 ≤ n.fmod d := Int.fmod_nonneg' n hd
    nlinarith [hmod]
  unfold roundHalfEvenFrac
  by_cases h1 : 2 * n.fmod d < d
  · simpa [h1] using hfle
  · by_cases h2 : d < 2 * n.fmod d
    · have hne : n.fdiv d ≠ k := by
        intro hEq
        have : n.fmod d = n - d * k := by rw [hmod, hEq]
        nlinarith
      simp only [h1, h2, if_true, if_false]
      omega
    · have hEq2 : 2 * n.fmod d = d := by omega
      have hne : n.fdiv d ≠ k := by
        intro hEq
        have : n.fmod d = n - d * k := by rw [hmod, hEq]
        nlinarith
      simp only [h1, h2, if_false]
      by_cases h3 : n.fdiv d % 2 = 0 <;> simp only [h3, if_true, if_false] <;> omega

/-- Rounding via `round(x, 2)` never overshoots a bound that is a whole number of hundredths. -/
theorem roundTo2_le {x : ℚ} {k : ℤ} (h : x ≤ mkRat k 100) : roundTo2 x ≤ mkRat k 100 := by
  rw [Rat.mkRat_eq_div] at h ⊢
  unfold roundTo2
  rw [Rat.mkRat_eq_div]
  have hden : (0 : ℚ) < (x.den : ℚ) := by
    exact_mod_cast x.pos
  have hx : x = (x.num : ℚ) / (x.den : ℚ) := (Rat.num_div_den x).symm
  have hcross : (100 * x.num : ℚ) ≤ (k : ℚ) * (x.den : ℚ) := by
    rw [hx] at h
    push_cast at h
    rw [div_le_div_iff₀ hden (by norm_num : (0:ℚ) < 100)] at h
    linarith
  have hint : 100 * x.num ≤ k * (x.den : ℤ) := by exact_mod_cast hcross
  have hle : roundHalfEvenFrac (100 * x.num) (x.den : ℤ) ≤ k :=
    roundHalfEvenFrac_le (by exact_mod_cast x.pos) hint
  have : ((roundHalfEvenFrac (100 * x.num) (x.den : ℤ) : ℚ)) ≤ (k : ℚ) := by
    exact_mod_cast hle
  push_cast
  rw [div_le_div_iff₀ (by norm_num : (0:ℚ) < 100) (by norm_num : (0:ℚ) < 100)]
  nlinarith

/-- Provenance through the filtering loop: every normalized event produced by
`nearbyEvents` arises from a raw input event whose `location` and `coordinates`
objects were extracted without raising and whose latitude and longitude were both
present, and whose unrounded distance is within the radius. -/
theorem nearbyEvents_mem {dist : ℚ → ℚ → ℚ → ℚ → ℚ}
    {latitude longitude max_distance : ℚ} :
    ∀ {evs : List RawEvent} {ns : List NormalizedEvent},
      nearbyEvents dist latitude longitude max_distance evs = Except.ok ns →
      ∀ {n : NormalizedEvent}, n ∈ ns →
      ∃ event ∈ evs, ∃ loc coords event_lat event_lon,
        event.location.getObj RawLocation.empty = Except.ok loc ∧
        loc.coordinates.getObj RawCoordinates.empty = Except.ok coords ∧
        coords.latitude.get = some event_lat ∧
        coords.longitude.get = some event_lon ∧
        dist latitude longitude event_lat event_lon ≤ max_distance ∧
        n = normalize event loc event_lat event_lon
          (roundTo2 (dist latitude longitude event_lat event_lon)) := by
  intro evs
  induction evs with
  | nil =>
    intro ns hok n hn
    unfold nearbyEvents at hok
    cases hok
    cases hn
  | cons event rest ih =>
    intro ns hok n hn
    unfold nearbyEvents at hok
    cases hloc : event.location.getObj RawLocation.empty with
    | error e =>
      simp only [hloc] at hok
      exact Except.noConfusion hok
    | ok loc =>
      simp only [hloc] at hok
      cases hcoords : loc.coordinates.getObj RawCoordinates.empty with
      | error e =>
        simp only [hcoords] at hok
        exact Except.noConfusion hok
      | ok coords =>
        simp only [hcoords] at hok
        cases hlat : coords.latitude.get with
        | none =>
          simp only [hlat] at hok
          obtain ⟨ev, hev, rest'⟩ := ih hok hn
          exact ⟨ev, List.mem_cons_of_mem _ hev, rest'⟩
        | some event_lat =>
          simp only [hlat] at hok
          cases hlon : coords.longitude.get with
          | none =>
            simp only [hlon] at hok
            obtain ⟨ev, hev, rest'⟩ := ih hok hn
            exact ⟨ev, List.mem_cons_of_mem _ hev, rest'⟩
          | some event_lon =>
            simp only [hlon] at hok
            by_cases hd : dist latitude longitude event_lat event_lon ≤ max_distance
            · rw [if_pos hd] at hok
              cases htail : nearbyEvents dist latitude longitude max_distance rest with
              | error e =>
                simp only [htail] at hok
                exact Except.noConfusion hok
              | ok tail =>
                simp only [htail] at hok
                have hns : normalize event loc event_lat event_lon
                    (roundTo2 (dist latitude longitude event_lat event_lon)) :: tail = ns :=
                  Except.ok.inj hok
                rw [← hns] at hn
                cases hn with
                | head =>
                  exact ⟨event, List.mem_cons_self _ _,
                    loc, coords, event_lat, event_lon,
                    hloc, hcoords, hlat, hlon, hd, rfl⟩
                | tail _ hn' =>
                  obtain ⟨ev, hev, rest'⟩ := ih htail hn'
                  exact ⟨ev, List.mem_cons_of_mem _ hev, rest'⟩
            · rw [if_neg hd] at hok
              obtain ⟨ev, hev, rest'⟩ := ih hok hn
              exact ⟨ev, List.mem_cons_of_mem _ hev, rest'⟩

/-- Inversion for the pipeline body: a normal return is either the empty sentinel
(unresolved or falsy location id) or the assembled set of nearby events for the
resolved id. -/
theorem get_events_for_days_core_ok {dist : ℚ → ℚ → ℚ → ℚ → ℚ} {u : Upstream}
    {postcode : PyStr} {latitude longitude max_distance : ℚ} {days : ℕ} {s : EventSet}
    (h : get_events_for_days_core dist u postcode latitude longitude max_distance days =
      Except.ok s) :
    s = EventSet.empty ∨
      ∃ location_id nearby,
        get_location_id u postcode = Except.ok (some location_id) ∧
        location_id ≠ 0 ∧
        nearbyEvents dist latitude longitude max_distance
          (get_events u location_id days) = Except.ok nearby ∧
        s = ⟨nearby.length, nearby⟩ := by
  unfold get_events_for_days_core at h
  cases hlid : get_location_id u postcode with
  | error e =>
    simp only [hlid] at h
    exact Except.noConfusion h
  | ok lid =>
    simp only [hlid] at h
    cases lid with
    | none =>
      simp only [] at h
      exact Or.inl (Except.ok.inj h).symm
    | some location_id =>
      simp only [] at h
      by_cases hz : location_id = 0
      · rw [if_pos hz] at h
        exact Or.inl (Except.ok.inj h).symm
      · rw [if_neg hz] at h
        cases hnear : nearbyEvents dist latitude longitude max_distance
            (get_events u location_id days) with
        | error e =>
          simp only [hnear] at h
          exact Except.noConfusion h
        | ok nearby =>
          simp only [hnear] at h
          exact Or.inr ⟨location_id, nearby, rfl, hz, hnear, (Except.ok.inj h).symm⟩

/-- Auxiliary to the count invariant: it holds for every days window. -/
theorem event_count_eq_length_aux (dist : ℚ → ℚ → ℚ → ℚ → ℚ) (u : Upstream)
    (postcode : PyStr) (latitude longitude max_distance : ℚ) (days : ℕ) :
    (get_events_for_days dist u postcode latitude longitude max_distance days).event_count =
      (get_events_for_days dist u postcode latitude longitude max_distance days).events.length := by
  unfold get_events_for_days
  cases h : get_events_for_days_core dist u postcode latitude longitude max_distance days with
  | error e => rfl
  | ok s =>
    rcases get_events_for_days_core_ok h with hs | ⟨lid, nearby, hlid, hz, hnear, hs⟩
    · subst hs; rfl
    · subst hs; rfl

/-- A constant distance oracle, used to instantiate concrete runs. -/
def distConst (q : ℚ) : ℚ → ℚ → ℚ → ℚ → ℚ := fun _ _ _ _ => q

/-- A concrete postcode. -/
def samplePostcode : PyStr := ['2', '0', '0', '0']

/-- A concrete `location` object with both coordinates present. -/
def sampleLoc : RawLocation := ⟨.absent, .val ⟨.val 0, .val 0⟩⟩

/-- Sample event title. -/
def sampleName : PyStr := "Show".toList

/-- Sample event date string. -/
def sampleDate : PyStr := "2025-11-25".toList

/-- Sample event start-time string. -/
def sampleStart : PyStr := "20:15".toList

/-- Sample event end-time string. -/
def sampleEnd : PyStr := "20:45".toList

/-- A concrete well-formed raw event. -/
def sampleEvent : RawEvent :=
  { name := .val sampleName
    rawlocation := .absent
    location := .val sampleLoc
    date := .val sampleDate
    start_time := .val sampleStart
    end_time := .val sampleEnd
    description := .absent
    source := .absent
    id := .val 7 }

/-- A concrete upstream: the prefix search yields one comma-separated pair, the
exact match resolves to id 5, the events response is the single `sampleEvent`. -/
def sampleUpstream : Upstream :=
  { locations_startswith := fun _ => .ok [['a', ',', 'b']]
    locations_exact := fun _ _ => .ok [⟨.val 5⟩]
    events := fun _ _ => .ok [sampleEvent] }

/-- The normalized event the pipeline produces from `sampleEvent` at constant
distance 2. -/
def nSample : NormalizedEvent := normalize sampleEvent sampleLoc 0 0 (roundTo2 2)

/-- C1: for every postcode, origin, radius, days window and upstream behaviour —
including any exception raised inside the geocoding, location-id or events steps,
which the embedding surfaces as the `Except.error` outcome of the pipeline body —
`_get_events_for_days` never raises: on a normal return of its body it returns the
body's well-formed `EventSet`, and when the body raises it returns the empty
`EventSet`.  `async_get_events` and `async_get_all_events` are definitionally its
days = 1 and days = 7 instances. -/
theorem get_events_for_days_never_raises (dist : ℚ → ℚ → ℚ → ℚ → ℚ) (u : Upstream)
    (postcode : PyStr) (latitude longitude max_distance : ℚ) (days : ℕ) :
    (∃ s : EventSet,
        get_events_for_days_core dist u postcode latitude longitude max_distance days =
          Except.ok s ∧
        get_events_for_days dist u postcode latitude longitude max_distance days = s) ∨
      (get_events_for_days_core dist u postcode latitude longitude max_distance days =
          Except.error () ∧
        get_events_for_days dist u postcode latitude longitude max_distance days =
          EventSet.empty) := by
  unfold get_events_for_days
  cases h : get_events_for_days_core dist u postcode latitude longitude max_distance days with
  | ok s => exact Or.inl ⟨s, rfl, rfl⟩
  | error e => cases e; exact Or.inr ⟨rfl, rfl⟩

/-- C2 is false as stated: with the configurable radius 0.009 km and an event at
unrounded distance 0.006 km, the filter retains the event (0.006 ≤ 0.009) but the
attached `round(0.006, 2) = 0.01` exceeds the radius. -/
theorem attached_distance_counterexample :
    ∃ n ∈ (get_events_for_days (distConst (mkRat 3 500)) sampleUpstream samplePostcode
        0 0 (mkRat 9 1000) 1).events,
      ¬ n.distance_km ≤ mkRat 9 1000 := by decide

/-- C2 (amended): every returned event's unrounded distance is at most the radius
(inclusive boundary), and whenever the radius is a whole number of hundredths of a
kilometre — `mkRat k 100` — the attached rounded `distance_km` also never exceeds
the radius; a non-round radius can be exceeded by the attached value by less than
0.005 km, as the counterexample shows. -/
theorem attached_distance_le_radius (dist : ℚ → ℚ → ℚ → ℚ → ℚ) (u : Upstream)
    (postcode : PyStr) (latitude longitude : ℚ) (k : ℤ) (days : ℕ)
    (n : NormalizedEvent)
    (hn : n ∈ (get_events_for_days dist u postcode latitude longitude
        (mkRat k 100) days).events) :
    n.distance_km ≤ mkRat k 100 := by
  unfold get_events_for_days at hn
  cases h : get_events_for_days_core dist u postcode latitude longitude (mkRat k 100) days with
  | error e =>
    simp only [h] at hn
    exact absurd hn (List.not_mem_nil n)
  | ok s =>
    simp only [h] at hn
    rcases get_events_for_days_core_ok h with hs | ⟨lid, nearby, hlid, hz, hnear, hs⟩
    · subst hs
      exact absurd hn (List.not_mem_nil n)
    · subst hs
      obtain ⟨event, hev, loc, coords, elat, elon, h1, h2, h3, h4, h5, h6⟩ :=
        nearbyEvents_mem hnear hn
      rw [h6]
      exact roundTo2_le h5

/-- Witness for the amended C2: with radius 10 km = `mkRat 1000 100` the sample
event is in the output and its attached distance respects the radius. -/
theorem attached_distance_le_radius_witness :
    (nSample ∈ (get_events_for_days (distConst 2) sampleUpstream samplePostcode
        0 0 (mkRat 1000 100) 1).events) ∧
      nSample.distance_km ≤ mkRat 1000 100 :=
  ⟨by decide, attached_distance_le_radius (distConst 2) sampleUpstream samplePostcode
      0 0 1000 1 nSample (by decide)⟩

/-- C3 is false as stated: a retained raw event carrying no `date`, `start_time`
or `end_time` key yields a normalized event whose corresponding values are
Python `None`, not strings — `event.get('date')` has no default. -/
theorem normalize_missing_date_counterexample :
    ∃ n ∈ (get_events_for_days (distConst 2)
        { locations_startswith := fun _ => .ok [['a', ',', 'b']]
          locations_exact := fun _ _ => .ok [⟨.val 5⟩]
          events := fun _ _ => .ok [RawEvent.blank (.val sampleLoc)] }
        samplePostcode 0 0 10 1).events,
      n.date = none ∧ n.start_time = none ∧ n.end_time = none := by decide

/-- C3 (amended): normalization is the pure field mapping `normalize`; it supplies
the documented defaults only for the absent `name`, `rawlocation`, `locality`,
`description` and `source` fields, while `date`, `start_time`, `end_time` and
`event_id` are copied through with no default and are `None` for a raw event all
of whose optional fields are absent. -/
theorem normalize_defaults (event_lat event_lon d : ℚ) (event : RawEvent)
    (loc : RawLocation) :
    normalize (RawEvent.blank .absent) RawLocation.empty event_lat event_lon d =
      { title := some defaultTitle
        location := some defaultLocationStr
        locality := some defaultLocality
        coordinates := (event_lat, event_lon)
        distance_km := d
        date := none
        start_time := none
        end_time := none
        description := some []
        source := some []
        event_id := none } ∧
    (normalize event loc event_lat event_lon d).date = event.date.get ∧
    (normalize event loc event_lat event_lon d).start_time = event.start_time.get ∧
    (normalize event loc event_lat event_lon d).end_time = event.end_time.get ∧
    (normalize event loc event_lat event_lon d).event_id = event.id.get :=
  ⟨rfl, rfl, rfl, rfl, rfl⟩

/-- C4 is false as stated: when the prefix search returns the comma-less string
`"x"`, the indexing `parts[1]` at line 75 of `api.py`, executed before the `try`
block, raises `IndexError` out of `_get_location_id`. -/
theorem get_location_id_raises_counterexample :
    get_location_id
      { locations_startswith := fun _ => .ok [['x']]
        locations_exact := fun _ _ => .ok []
        events := fun _ _ => .ok [] }
      samplePostcode = Except.error () := by decide

/-- C4 (amended): `_get_location_id` never raises provided every string the
prefix search can hand it splits on commas into at least two parts (so that
`parts[1]` exists); under that proviso every request failure, empty response or
malformed record yields `None` (NotFound) rather than an exception. -/
theorem get_location_id_total (u : Upstream) (postcode : PyStr)
    (h : ∀ s, get_locations u postcode = some s → 2 ≤ (pySplitComma s).length) :
    ∃ r : Option ℤ, get_location_id u postcode = Except.ok r := by
  unfold get_location_id
  cases hg : get_locations u postcode with
  | none => exact ⟨none, rfl⟩
  | some location =>
    by_cases hl : location = []
    · exact ⟨none, by simp [hl]⟩
    · have h2 := h location hg
      cases hsp : pySplitComma location with
      | nil => rw [hsp] at h2; simp at h2
      | cons p0 ps =>
        cases ps with
        | nil => rw [hsp] at h2; simp at h2
        | cons p1 rest2 =>
          cases hex : u.locations_exact (pyLower (pyStrip p0)) (pyStrip p1) with
          | err => exact ⟨none, by simp [hl, hsp, hex]⟩
          | ok recs =>
            cases recs with
            | nil => exact ⟨none, by simp [hl, hsp, hex]⟩
            | cons r rs => exact ⟨r.id.get, by simp [hl, hsp, hex]⟩

/-- Witness for the amended C4: an upstream whose step-1 answer contains a comma
resolves without raising. -/
theorem get_location_id_total_witness :
    (∀ s, get_locations sampleUpstream samplePostcode = some s →
        2 ≤ (pySplitComma s).length) ∧
      ∃ r : Option ℤ, get_location_id sampleUpstream samplePostcode = Except.ok r := by
  have hcomma : ∀ s, get_locations sampleUpstream samplePostcode = some s →
      2 ≤ (pySplitComma s).length := by
    intro s hs
    have h2 : some (['a', ',', 'b'] : PyStr) = some s := hs
    injection h2 with h3
    subst h3
    decide
  exact ⟨hcomma, get_location_id_total sampleUpstream samplePostcode hcomma⟩

/-- C5: in every `EventSet` returned by `_get_events_for_days` (for any days
value) and by its wrappers `async_get_events` and `async_get_all_events`, the
`event_count` field equals the length of the `events` sequence. -/
theorem event_count_eq_length (dist : ℚ → ℚ → ℚ → ℚ → ℚ) (u : Upstream)
    (postcode : PyStr) (latitude longitude max_distance : ℚ) (days : ℕ) :
    ((get_events_for_days dist u postcode latitude longitude max_distance days).event_count =
      (get_events_for_days dist u postcode latitude longitude max_distance days).events.length) ∧
    ((async_get_events dist u postcode latitude longitude max_distance).event_count =
      (async_get_events dist u postcode latitude longitude max_distance).events.length) ∧
    ((async_get_all_events dist u postcode latitude longitude max_distance).event_count =
      (async_get_all_events dist u postcode latitude longitude max_distance).events.length) :=
  ⟨event_count_eq_length_aux dist u postcode latitude longitude max_distance days,
    event_count_eq_length_aux dist u postcode latitude longitude max_distance 1,
    event_count_eq_length_aux dist u postcode latitude longitude max_distance 7⟩

/-- C6: every event in the pipeline output originates from a raw event of the
upstream events response whose latitude and longitude extraction both yielded
values; hence a raw event whose `location.coordinates` lacks latitude or
longitude (absent or null) is never represented in the output, for any radius
and any upstream events response. -/
theorem output_events_have_coordinates (dist : ℚ → ℚ → ℚ → ℚ → ℚ) (u : Upstream)
    (postcode : PyStr) (latitude longitude max_distance : ℚ) (days : ℕ)
    (n : NormalizedEvent)
    (hn : n ∈ (get_events_for_days dist u postcode latitude longitude
        max_distance days).events) :
    ∃ location_id, get_location_id u postcode = Except.ok (some location_id) ∧
      ∃ event ∈ get_events u location_id days, ∃ loc coords event_lat event_lon,
        event.location.getObj RawLocation.empty = Except.ok loc ∧
        loc.coordinates.getObj RawCoordinates.empty = Except.ok coords ∧
        coords.latitude.get = some event_lat ∧
        coords.longitude.get = some event_lon ∧
        n = normalize event loc event_lat event_lon
          (roundTo2 (dist latitude longitude event_lat event_lon)) := by
  unfold get_events_for_days at hn
  cases h : get_events_for_days_core dist u postcode latitude longitude max_distance days with
  | error e =>
    simp only [h] at hn
    exact absurd hn (List.not_mem_nil n)
  | ok s =>
    simp only [h] at hn
    rcases get_events_for_days_core_ok h with hs | ⟨lid, nearby, hlid, hz, hnear, hs⟩
    · subst hs
      exact absurd hn (List.not_mem_nil n)
    · subst hs
      obtain ⟨event, hev, loc, coords, elat, elon, h1, h2, h3, h4, h5, h6⟩ :=
        nearbyEvents_mem hnear hn
      exact ⟨lid, hlid, event, hev, loc, coords, elat, elon, h1, h2, h3, h4, h6⟩

/-- Witness for C6 at a concrete run. -/
theorem output_events_have_coordinates_witness :
    (nSample ∈ (get_events_for_days (distConst 2) sampleUpstream samplePostcode
        0 0 10 1).events) ∧
      (∃ location_id, get_location_id sampleUpstream samplePostcode =
          Except.ok (some location_id) ∧
        ∃ event ∈ get_events sampleUpstream location_id 1,
          ∃ loc coords event_lat event_lon,
            event.location.getObj RawLocation.empty = Except.ok loc ∧
            loc.coordinates.getObj RawCoordinates.empty = Except.ok coords ∧
            coords.latitude.get = some event_lat ∧
            coords.longitude.get = some event_lon ∧
            nSample = normalize event loc event_lat event_lon
              (roundTo2 (distConst 2 0 0 event_lat event_lon))) :=
  ⟨by decide, output_events_have_coordinates (distConst 2) sampleUpstream samplePostcode
      0 0 10 1 nSample (by decide)⟩

/-- C7: when the prefix search answers with an empty sequence the pipeline
returns the empty `EventSet`; the exact-match and events oracles are universally
quantified and unused, which renders that neither of those endpoints is
consulted in the invocation. -/
theorem empty_search_returns_empty (dist : ℚ → ℚ → ℚ → ℚ → ℚ)
    (sw : PyStr → UpResp (List PyStr))
    (exq : PyStr → PyStr → UpResp (List LocRecord))
    (evq : ℤ → ℕ → UpResp (List RawEvent))
    (postcode : PyStr) (latitude longitude max_distance : ℚ) (days : ℕ)
    (h : sw postcode = UpResp.ok []) :
    get_events_for_days dist ⟨sw, exq, evq⟩ postcode latitude longitude
      max_distance days = EventSet.empty := by
  unfold get_events_for_days get_events_for_days_core get_location_id get_locations
  simp only [h]

/-- Witness for C7 at a concrete run whose events oracle is nonempty. -/
theorem empty_search_returns_empty_witness :
    ((fun _ : PyStr => UpResp.ok ([] : List PyStr)) samplePostcode = UpResp.ok []) ∧
      get_events_for_days (distConst 2)
        ⟨fun _ => UpResp.ok [], fun _ _ => UpResp.err, fun _ _ => UpResp.ok [sampleEvent]⟩
        samplePostcode 0 0 10 1 = EventSet.empty :=
  ⟨rfl, empty_search_returns_empty (distConst 2) (fun _ => UpResp.ok [])
    (fun _ _ => UpResp.err) (fun _ _ => UpResp.ok [sampleEvent])
    samplePostcode 0 0 10 1 rfl⟩

/-- C8: the pipeline is deterministic in its upstream responses: two upstream
oracles that answer every query identically produce field-for-field identical
`EventSet`s for the same postcode, origin, radius and days window. -/
theorem pipeline_deterministic (dist : ℚ → ℚ → ℚ → ℚ → ℚ) (u1 u2 : Upstream)
    (postcode : PyStr) (latitude longitude max_distance : ℚ) (days : ℕ)
    (hsw : ∀ q, u1.locations_startswith q = u2.locations_startswith q)
    (hex : ∀ a b, u1.locations_exact a b = u2.locations_exact a b)
    (hev : ∀ i d, u1.events i d = u2.events i d) :
    get_events_for_days dist u1 postcode latitude longitude max_distance days =
      get_events_for_days dist u2 postcode latitude longitude max_distance days := by
  obtain ⟨sw1, ex1, ev1⟩ := u1
  obtain ⟨sw2, ex2, ev2⟩ := u2
  have h1 : sw1 = sw2 := funext hsw
  have h2 : ex1 = ex2 := funext fun a => funext fun b => hex a b
  have h3 : ev1 = ev2 := funext fun i => funext fun d => hev i d
  subst h1
  subst h2
  subst h3
  rfl

/-- Witness for C8. -/
theorem pipeline_deterministic_witness :
    (∀ q, sampleUpstream.locations_startswith q = sampleUpstream.locations_startswith q) ∧
      (∀ a b, sampleUpstream.locations_exact a b = sampleUpstream.locations_exact a b) ∧
      (∀ i d, sampleUpstream.events i d = sampleUpstream.events i d) ∧
      get_events_for_days (distConst 2) sampleUpstream samplePostcode 0 0 10 1 =
        get_events_for_days (distConst 2) sampleUpstream samplePostcode 0 0 10 1 :=
  ⟨fun _ => rfl, fun _ _ => rfl, fun _ _ => rfl,
    pipeline_deterministic (distConst 2) sampleUpstream sampleUpstream samplePostcode
      0 0 10 1 (fun _ => rfl) (fun _ _ => rfl) (fun _ _ => rfl)⟩

/-- C9: the haversine great-circle distance is symmetric in its two coordinate
pairs. -/
theorem calculate_distance_symm (lat1 lon1 lat2 lon2 : ℝ) :
    calculate_distance lat1 lon1 lat2 lon2 = calculate_distance lat2 lon2 lat1 lon1 := by
  unfold calculate_distance
  have h : ∀ a b : ℝ, Real.sin ((a - b) / 2) ^ 2 = Real.sin ((b - a) / 2) ^ 2 := fun a b => by
    rw [show (a - b) / 2 = -((b - a) / 2) by ring, Real.sin_neg, neg_sq]
  rw [h (radians lat2) (radians lat1), h (radians lon2) (radians lon1),
    mul_comm (Real.cos (radians lat1)) (Real.cos (radians lat2))]

/-- C10: an upstream exact-match response whose first record has `id = 0` — a
present, well-formed identifier — is treated as an unresolvable postcode because
of the Python truthiness test `if not location_id`: the pipeline returns the
empty `EventSet`, with the events oracle universally quantified and unused (the
events endpoint is not consulted in the invocation). -/
theorem zero_location_id_returns_empty (dist : ℚ → ℚ → ℚ → ℚ → ℚ) (u : Upstream)
    (evq : ℤ → ℕ → UpResp (List RawEvent)) (postcode : PyStr)
    (latitude longitude max_distance : ℚ) (days : ℕ)
    (s : PyStr) (tl : List PyStr) (p0 p1 : PyStr) (ps : List PyStr)
    (r : LocRecord) (rs : List LocRecord)
    (hsw : u.locations_startswith postcode = UpResp.ok (s :: tl))
    (hne : s ≠ [])
    (hsp : pySplitComma s = p0 :: p1 :: ps)
    (hex : u.locations_exact (pyLower (pyStrip p0)) (pyStrip p1) = UpResp.ok (r :: rs))
    (hid : r.id = JField.val 0) :
    get_events_for_days dist ⟨u.locations_startswith, u.locations_exact, evq⟩
      postcode latitude longitude max_distance days = EventSet.empty := by
  unfold get_events_for_days get_events_for_days_core get_location_id get_locations
  simp [hsw, hsp, hex, hid, if_neg hne, JField.get]

/-- Witness for C10: a concrete upstream resolving to id 0, with a nonempty
events oracle, still yields the empty result. -/
theorem zero_location_id_returns_empty_witness :
    ((fun _ : PyStr => UpResp.ok ([['a', ',', 'b']] : List PyStr)) samplePostcode =
        UpResp.ok [['a', ',', 'b']]) ∧
      (['a', ',', 'b'] : PyStr) ≠ [] ∧
      pySplitComma ['a', ',', 'b'] = [['a'], ['b']] ∧
      ((fun _ _ : PyStr => UpResp.ok [(⟨JField.val 0⟩ : LocRecord)])
          (pyLower (pyStrip ['a'])) (pyStrip ['b']) =
        UpResp.ok [(⟨JField.val 0⟩ : LocRecord)]) ∧
      (⟨JField.val 0⟩ : LocRecord).id = JField.val 0 ∧
      get_events_for_days (distConst 2)
        ⟨fun _ => UpResp.ok [['a', ',', 'b']], fun _ _ => UpResp.ok [⟨JField.val 0⟩],
          fun _ _ => UpResp.ok [sampleEvent]⟩
        samplePostcode 0 0 10 1 = EventSet.empty :=
  ⟨rfl, by decide, by decide, rfl, rfl,
    zero_location_id_returns_empty (distConst 2)
      ⟨fun _ => UpResp.ok [['a', ',', 'b']], fun _ _ => UpResp.ok [⟨JField.val 0⟩],
        fun _ _ => UpResp.err⟩
      (fun _ _ => UpResp.ok [sampleEvent]) samplePostcode 0 0 10 1
      ['a', ',', 'b'] [] ['a'] ['b'] [] ⟨JField.val 0⟩ []
      rfl (by decide) (by decide) rfl rfl⟩

end Fireworks
